import Mathlib

/-!
Verification of the trento repository against its specification.

The development shallowly embeds the Go source: pure functions become Lean
functions, the event-ingestion pipeline becomes explicit state passing over a
pipeline-state record, and fallible operations return `Option`/`Except`.
-/

namespace Trento

/-! ## Agent discovery (package `discover`)

Embeds the `Discover` struct and its methods from the agent discovery file.
`os.Hostname` is passed in explicitly as the ambient hostname; the Consul
client is abstracted to its `KV().Put` capability, which returns an optional
error. -/

/-- Abstraction of `consul.Client`: the only capability the discover code
uses is `KV().Put(key, value)`, which may return an error. -/
structure ConsulClient where
  kvPut : String → String → Option String

/-- The `Discover` struct: `id`, `client`, `host` fields. -/
structure Discover where
  id : String
  client : ConsulClient
  host : String

/-- `func (discover Discover) GetId() string { return discover.id }` -/
def Discover.GetId (discover : Discover) : String :=
  discover.id

/-- The KV path built by `storeDiscovery`:
`fmt.Sprintf("%s/%s/%s", consul.KvHostsPath, discover.host, cStorePath)`.
`consul.KvHostsPath` lives outside the given sources, so it is passed in as
the `kvHostsPath` argument. -/
def Discover.storeDiscoveryKey (kvHostsPath : String) (discover : Discover)
    (cStorePath : String) : String :=
  kvHostsPath ++ "/" ++ discover.host ++ "/" ++ cStorePath

/-- `func (discover Discover) storeDiscovery(cStorePath, cStoreValue string) error`:
puts the value at the derived KV path and returns the client's error. -/
def Discover.storeDiscovery (kvHostsPath : String) (discover : Discover)
    (cStorePath cStoreValue : String) : Option String :=
  discover.client.kvPut
    (Discover.storeDiscoveryKey kvHostsPath discover cStorePath) cStoreValue

/-- Body of `func (discover Discover) Discover() error`: it assigns
`discover.host, _ = os.Hostname()` on its local receiver copy and returns
`nil`. The first component is the method-local copy after the body runs, the
second the returned error. -/
def Discover.discoverBody (discover : Discover) (hostname : String) :
    Discover × Option String :=
  ({ discover with host := hostname }, none)

/-- Calling `Discover()` from a caller holding value `discover`: because the
method has a VALUE receiver, the body runs on a copy; the caller keeps its
original value and observes only the returned error. -/
def Discover.discoverCall (discover : Discover) (hostname : String) :
    Discover × Option String :=
  (discover, (Discover.discoverBody discover hostname).2)

/-- `func NewDiscover(client consul.Client) Discover`: zero value, then
`r.id = ""`, `r.client = client`, `r.host, _ = os.Hostname()`. -/
def NewDiscover (client : ConsulClient) (hostname : String) : Discover :=
  { id := "", client := client, host := hostname }

/-! ## Swagger documentation (package `api`, `docs.go`)

Embeds `ReadDoc`. The template engine (`text/template`) is external, so
parsing and execution are passed in as fallible functions; the concrete
template text `doc` is passed as a string. What the source fixes — the
newline escaping of the description, and the fallback to the raw template on
any parse or execution error — is embedded concretely. -/

/-- The `swaggerInfo` struct holding the exported Swagger fields. -/
structure SwaggerInfo where
  Version : String
  Host : String
  BasePath : String
  Schemes : List String
  Title : String
  Description : String
  deriving DecidableEq, Repr

/-- `sInfo.Description = strings.Replace(sInfo.Description, "\n", "\\n", -1)` -/
def escapeDescription (info : SwaggerInfo) : SwaggerInfo :=
  { info with Description := info.Description.replace "\n" "\\n" }

/-- `func (s *s) ReadDoc() string`, parameterized by the template text `doc`
and the external template engine: `parse doc` may fail; on success execution
of the parsed template against the escaped info may fail; either failure
falls back to returning `doc` itself. -/
def ReadDoc {Tmpl : Type} (doc : String) (info : SwaggerInfo)
    (parse : String → Except String Tmpl)
    (exec : Tmpl → SwaggerInfo → Except String String) : String :=
  let sInfo := escapeDescription info
  match parse doc with
  | .error _ => doc
  | .ok t =>
    match exec t sInfo with
    | .error _ => doc
    | .ok rendered => rendered

/-! ## Event-ingestion pipeline (`web/datapipeline`)

`web/app.go` wires the pipeline (`InitProjectorsRegistry`,
`NewProjectorsWorkerPool`, the collector service feeding the pool's channel),
but the `datapipeline` package sources themselves are not among the given
files; the pipeline's behavior below is therefore modelled from the spec
(§3, §4.1–§4.5, §5), as noted on each definition. -/

abbrev Source := String
abbrev EventType := String
abbrev Payload := String

/-- Modelled from the spec: the Event Envelope —
`{ id, source identifier, event type discriminator, payload, received timestamp }`. -/
structure Envelope where
  id : Nat
  source : Source
  eventType : EventType
  payload : Payload
  receivedAt : Nat
  deriving DecidableEq, Repr

/-- Modelled from the spec: a projection outcome is a discriminated result,
`Success` or `Failure(reason)`. -/
inductive Outcome where
  | success : Outcome
  | failure (reason : String) : Outcome
  deriving DecidableEq, Repr

/-- Modelled from the spec: a Subscription Ledger row —
`{ source identifier, event type, last processed timestamp, last outcome }`,
one row per (source, event type) pair. -/
structure LedgerEntry where
  source : Source
  eventType : EventType
  lastProcessedAt : Nat
  lastOutcome : Outcome
  deriving DecidableEq, Repr

/-- Domain entity tables, abstracted as named table contents. -/
abbrev Entities := List (String × String)

/-- Modelled from the spec: a Projector capability — a single
`apply(envelope payload) -> outcome` operation that either produces the
mutated domain entities or fails with a reason. -/
abbrev Projector := Payload → Entities → Except String Entities

/-- Modelled from the spec: the Projector Registry — a mapping from event
type discriminator to projector, at most one per discriminator. -/
abbrev Registry := List (EventType × Projector)

/-- Modelled from the spec: `Resolve(eventType) -> Projector | NotFoundError`;
lookup of an unregistered discriminator is a defined failure (`none`). -/
def resolve (registry : Registry) (t : EventType) : Option Projector :=
  (registry.find? (fun r => r.1 == t)).map (·.2)

/-- Modelled from the spec: `RecordOutcome(source, eventType, outcome)` with
upsert semantics on the unique (source, event type) key — update
`last processed timestamp` and `last outcome` in place if the row exists,
else create it. -/
def recordOutcome : List LedgerEntry → Source → EventType → Nat → Outcome →
    List LedgerEntry
  | [], src, t, now, o =>
      [{ source := src, eventType := t, lastProcessedAt := now, lastOutcome := o }]
  | e :: rest, src, t, now, o =>
      if e.source == src && e.eventType == t then
        { e with lastProcessedAt := now, lastOutcome := o } :: rest
      else
        e :: recordOutcome rest src t now o

/-- Read back the last outcome recorded for a (source, event type) pair. -/
def lookupOutcome (ledger : List LedgerEntry) (src : Source) (t : EventType) :
    Option Outcome :=
  (ledger.find? (fun e => e.source == src && e.eventType == t)).map (·.lastOutcome)

/-- The pipeline's state: the immutable projector registry handed to the
worker pool at startup, the durable append-only envelope store, the bounded
FIFO ingress queue, the domain entity tables and the subscription ledger. -/
structure PipelineState where
  registry : Registry
  store : List Envelope
  queue : List Envelope
  entities : Entities
  ledger : List LedgerEntry

/-- Modelled from the spec: `Persist(envelope)` — append the envelope to the
durable store; envelopes are write-once, the component exposes no update or
delete. -/
def persist (st : PipelineState) (env : Envelope) : PipelineState :=
  { st with store := st.store ++ [env] }

/-- A backpressure signal returned to an enqueueing caller. -/
structure BackpressureError where
  message : String
  deriving DecidableEq, Repr

/-- Modelled from the spec: `Enqueue` on the bounded ingress queue of
capacity `cap`. With room, the envelope is appended at once; on a full
queue the caller waits at most the configured `timeout` and then receives a
backpressure error, the item staying un-enqueued rather than silently
dropped. The last component is the caller-observed wait. -/
def enqueue (cap timeout : Nat) (st : PipelineState) (env : Envelope) :
    PipelineState × Except BackpressureError Unit × Nat :=
  if st.queue.length < cap then
    ({ st with queue := st.queue ++ [env] }, Except.ok (), 0)
  else
    (st, Except.error { message := "enqueue timed out: backpressure" }, timeout)

/-- Modelled from the spec: one worker dispatch of a dequeued envelope
(§4.4 step 2). Unregistered type: record `Failure("unknown event type")` and
move on. Resolved projector: run it inside one transaction — on success the
entity mutation and `RecordOutcome(Success)` commit together; on failure the
domain transaction rolls back entirely (entities unchanged) while
`RecordOutcome(Failure(reason))` is a separate, always-committed write. -/
def dispatchOne (st : PipelineState) (now : Nat) (env : Envelope) :
    PipelineState :=
  match resolve st.registry env.eventType with
  | none =>
      let ledger2 := recordOutcome st.ledger env.source env.eventType now
        (Outcome.failure "unknown event type")
      { st with ledger := ledger2 }
  | some proj =>
      match proj env.payload st.entities with
      | Except.ok entities2 =>
          let ledger2 := recordOutcome st.ledger env.source env.eventType now
            Outcome.success
          { st with entities := entities2, ledger := ledger2 }
      | Except.error reason =>
          let ledger2 := recordOutcome st.ledger env.source env.eventType now
            (Outcome.failure reason)
          { st with ledger := ledger2 }

/-- Modelled from the spec: a worker pulls the next envelope off the FIFO
ingress queue (head first) and dispatches it start-to-finish. -/
def stepDispatch (st : PipelineState) (now : Nat) : PipelineState :=
  match st.queue with
  | [] => st
  | env :: rest => dispatchOne { st with queue := rest } now env

/-- Dispatch every envelope of the list in order against the running state. -/
def runList (st : PipelineState) (now : Nat) : List Envelope → PipelineState
  | [] => st
  | env :: rest => runList (dispatchOne st now env) (now + 1) rest

/-- The envelopes a run over the list dispatches, in dispatch order. -/
def runListTrace (st : PipelineState) (now : Nat) : List Envelope → List Envelope
  | [] => []
  | env :: rest => env :: runListTrace (dispatchOne st now env) (now + 1) rest

/-- Modelled from the spec: drain the ingress queue, dispatching envelopes in
FIFO order. -/
def drain (st : PipelineState) (now : Nat) : PipelineState :=
  runList { st with queue := [] } now st.queue

/-- The dispatch order observed while draining the queue. -/
def drainTrace (st : PipelineState) (now : Nat) : List Envelope :=
  runListTrace { st with queue := [] } now st.queue

/-- Everything the running process does to pipeline state after startup:
persist an envelope, enqueue one (with the queue's capacity and timeout), or
let a worker dispatch the queue head. -/
inductive PipelineOp where
  | persistOp (env : Envelope)
  | enqueueOp (cap timeout : Nat) (env : Envelope)
  | dispatchOp (now : Nat)

/-- Apply one pipeline operation to the state. -/
def applyOp (st : PipelineState) : PipelineOp → PipelineState
  | PipelineOp.persistOp env => persist st env
  | PipelineOp.enqueueOp cap timeout env => (enqueue cap timeout st env).1
  | PipelineOp.dispatchOp now => stepDispatch st now

/-- Apply a whole process lifetime of pipeline operations. -/
def applyOps (st : PipelineState) (ops : List PipelineOp) : PipelineState :=
  ops.foldl applyOp st

/-- Modelled from the spec: `InitProjectorsRegistry` builds the fixed
projector registry at startup; the set of registrations is a build-time
property, given here as `registrations`. -/
def InitProjectorsRegistry (registrations : Registry) : Registry :=
  registrations

/-- Modelled from the spec: `NewProjectorsWorkerPool(registry)` — the
registry object is handed by ownership into the worker pool before the
dispatcher runs; store, queue, entities and ledger start empty. -/
def NewProjectorsWorkerPool (registry : Registry) : PipelineState :=
  { registry := registry, store := [], queue := [], entities := [], ledger := [] }

/-! ## Startup database retry (`web/app.go`, `DefaultDependencies`)

`DefaultDependencies` connects to the database under
`retry.Do(..., retry.Delay(1*time.Second), retry.MaxJitter(2*time.Second),
retry.Attempts(8), retry.LastErrorOnly(true))` and calls `log.Fatalf` when
the returned error is non-nil. `retry.Do` is external (retry-go); it is
embedded by its documented semantics with these options. -/

/-- One process-start outcome: either the connected handle, or a fatal end
of process start (`log.Fatalf`). -/
inductive Startup (E A : Type) where
  | started (db : A)
  | fatal (err : E)
  deriving DecidableEq, Repr

/-- retry-go `Do` with `LastErrorOnly(true)`: attempt `f k`; on success stop,
on failure retry at `k+1` while retries remain, else report the last error.
Returns the result and the number of attempts performed. `retries` counts
the attempts still allowed after the current one. -/
def retryDo {E A : Type} (f : Nat → Except E A) :
    Nat → Nat → Except E A × Nat
  | k, retries =>
    match f k, retries with
    | Except.ok a, _ => (Except.ok a, 1)
    | Except.error e, 0 => (Except.error e, 1)
    | Except.error _, r + 1 =>
        let res := retryDo f (k + 1) r
        (res.1, res.2 + 1)

/-- The wait in milliseconds before retry number `n`, as configured in
`DefaultDependencies`: base `Delay(1s)` under retry-go's default exponential
backoff, plus jitter capped by `MaxJitter(2s)`. -/
def retryDelayMs (jitter : Nat → Nat) (n : Nat) : Nat :=
  1000 * 2 ^ n + min (jitter n) 2000

/-- The `retry.Do` call of `DefaultDependencies`: `Attempts(8)` — one first
attempt plus at most 7 retries. -/
def dbConnectRetry {E A : Type} (tryInit : Nat → Except E A) :
    Except E A × Nat :=
  retryDo tryInit 0 7

/-- The database-connection phase of `DefaultDependencies`: bounded retry
with backoff; a remaining error makes process start fatal
(`log.Fatalf("failed to connect database: ...")`). -/
def defaultDependenciesDB {E A : Type} (tryInit : Nat → Except E A) :
    Startup E A :=
  match (dbConnectRetry tryInit).1 with
  | Except.ok db => Startup.started db
  | Except.error e => Startup.fatal e

/-! ## Concrete fixtures exercising the model -/

/-- A concrete envelope from the spec scenario (`host-1`, `host.discovered`). -/
def exEnvelope : Envelope :=
  { id := 1, source := "host-1", eventType := "host.discovered",
    payload := "p1", receivedAt := 4 }

/-- A later envelope of the same (source, event type) pair. -/
def exEnvelope2 : Envelope :=
  { id := 2, source := "host-1", eventType := "host.discovered",
    payload := "p2", receivedAt := 6 }

/-- An envelope whose type has no registered projector
(spec scenario `unknown.type`). -/
def exUnknown : Envelope :=
  { id := 3, source := "host-1", eventType := "unknown.type",
    payload := "q", receivedAt := 7 }

/-- A projector that always fails with a domain validation error. -/
def failingProjector : Projector := fun _ _ => Except.error "validation failed"

/-- A registry holding a single registration. -/
def exRegistry : Registry := [("host.discovered", failingProjector)]

/-- A concrete pipeline state whose queue holds two same-pair envelopes. -/
def exState : PipelineState :=
  { registry := exRegistry, store := [exEnvelope],
    queue := [exEnvelope, exEnvelope2],
    entities := [("hosts", "h1")], ledger := [] }

/-- A concrete pipeline state whose queue head has an unregistered type. -/
def exStateUnknown : PipelineState :=
  { registry := exRegistry, store := [exUnknown, exEnvelope2],
    queue := [exUnknown, exEnvelope2],
    entities := [("hosts", "h1")], ledger := [] }

/-- The `SwaggerInfo` value of `docs.go`. -/
def exSwaggerInfo : SwaggerInfo :=
  { Version := "1.0", Host := "", BasePath := "/api", Schemes := ["http"],
    Title := "Trento API", Description := "Trento API" }

/-! ## Helper lemmas -/

theorem lookupOutcome_recordOutcome (src : Source) (t : EventType) (now : Nat)
    (o : Outcome) : ∀ l : List LedgerEntry,
    lookupOutcome (recordOutcome l src t now o) src t = some o := by
  intro l
  induction l with
  | nil => simp [recordOutcome, lookupOutcome]
  | cons e rest ih =>
    by_cases h : (e.source == src && e.eventType == t) = true
    · have h2 : ({ e with lastProcessedAt := now, lastOutcome := o } : LedgerEntry).source == src
          && ({ e with lastProcessedAt := now, lastOutcome := o } : LedgerEntry).eventType == t := h
      simp [recordOutcome, h, lookupOutcome, List.find?_cons_of_pos, h2]
    · have hb : (e.source == src && e.eventType == t) = false := by
        simpa using h
      simp only [recordOutcome, if_neg h, lookupOutcome] at ih ⊢
      rw [List.find?_cons, hb]
      exact ih

theorem dispatchOne_registry (st : PipelineState) (now : Nat) (env : Envelope) :
    (dispatchOne st now env).registry = st.registry := by
  unfold dispatchOne
  split
  · rfl
  · split <;> rfl

theorem dispatchOne_store (st : PipelineState) (now : Nat) (env : Envelope) :
    (dispatchOne st now env).store = st.store := by
  unfold dispatchOne
  split
  · rfl
  · split <;> rfl

theorem dispatchOne_queue (st : PipelineState) (now : Nat) (env : Envelope) :
    (dispatchOne st now env).queue = st.queue := by
  unfold dispatchOne
  split
  · rfl
  · split <;> rfl

theorem stepDispatch_registry (st : PipelineState) (now : Nat) :
    (stepDispatch st now).registry = st.registry := by
  unfold stepDispatch
  split
  · rfl
  · rw [dispatchOne_registry]

theorem stepDispatch_store (st : PipelineState) (now : Nat) :
    (stepDispatch st now).store = st.store := by
  unfold stepDispatch
  split
  · rfl
  · rw [dispatchOne_store]

theorem enqueue_registry (cap timeout : Nat) (st : PipelineState)
    (env : Envelope) : (enqueue cap timeout st env).1.registry = st.registry := by
  unfold enqueue
  split <;> rfl

theorem enqueue_store (cap timeout : Nat) (st : PipelineState)
    (env : Envelope) : (enqueue cap timeout st env).1.store = st.store := by
  unfold enqueue
  split <;> rfl

theorem applyOp_registry (st : PipelineState) (op : PipelineOp) :
    (applyOp st op).registry = st.registry := by
  cases op with
  | persistOp env => rfl
  | enqueueOp cap timeout env => exact enqueue_registry cap timeout st env
  | dispatchOp now => exact stepDispatch_registry st now

theorem applyOps_registry (ops : List PipelineOp) :
    ∀ st : PipelineState, (applyOps st ops).registry = st.registry := by
  induction ops with
  | nil => intro st; rfl
  | cons op rest ih =>
    intro st
    show (applyOps (applyOp st op) rest).registry = st.registry
    rw [ih, applyOp_registry]

theorem applyOp_store_extend (st : PipelineState) (op : PipelineOp) :
    ∃ tail, (applyOp st op).store = st.store ++ tail := by
  cases op with
  | persistOp env => exact ⟨[env], rfl⟩
  | enqueueOp cap timeout env =>
    exact ⟨[], by rw [List.append_nil]; exact enqueue_store cap timeout st env⟩
  | dispatchOp now =>
    exact ⟨[], by rw [List.append_nil]; exact stepDispatch_store st now⟩

theorem applyOps_store_extend (ops : List PipelineOp) :
    ∀ st : PipelineState, ∃ tail, (applyOps st ops).store = st.store ++ tail := by
  induction ops with
  | nil => intro st; exact ⟨[], (List.append_nil _).symm⟩
  | cons op rest ih =>
    intro st
    obtain ⟨t1, h1⟩ := applyOp_store_extend st op
    obtain ⟨t2, h2⟩ := ih (applyOp st op)
    exact ⟨t1 ++ t2, by
      show (applyOps (applyOp st op) rest).store = _
      rw [h2, h1, List.append_assoc]⟩

theorem runListTrace_id (q : List Envelope) :
    ∀ (st : PipelineState) (now : Nat), runListTrace st now q = q := by
  induction q with
  | nil => intro st now; rfl
  | cons env rest ih =>
    intro st now
    show env :: runListTrace (dispatchOne st now env) (now + 1) rest = env :: rest
    rw [ih]

theorem retryDo_attempts_le {E A : Type} (f : Nat → Except E A) :
    ∀ (r k : Nat), (retryDo f k r).2 ≤ r + 1 := by
  intro r
  induction r with
  | zero =>
    intro k
    unfold retryDo
    cases f k <;> simp
  | succ r ih =>
    intro k
    unfold retryDo
    cases f k with
    | ok a => simp
    | error e =>
      simp only []
      have := ih (k + 1)
      omega

theorem retryDo_all_fail {E A : Type} (f : Nat → Except E A) :
    ∀ (r k : Nat), (∀ j, j ≤ r → ∃ e, f (k + j) = Except.error e) →
    ∃ e, f (k + r) = Except.error e ∧ (retryDo f k r).1 = Except.error e := by
  intro r
  induction r with
  | zero =>
    intro k h
    obtain ⟨e, he⟩ := h 0 (Nat.le_refl 0)
    rw [Nat.add_zero] at he
    refine ⟨e, by simpa using he, ?_⟩
    unfold retryDo
    rw [he]
  | succ r ih =>
    intro k h
    obtain ⟨e0, he0⟩ := h 0 (Nat.zero_le _)
    rw [Nat.add_zero] at he0
    obtain ⟨e, he, hres⟩ := ih (k + 1) (fun j hj => by
      obtain ⟨e, hee⟩ := h (j + 1) (by omega)
      exact ⟨e, by rw [show k + 1 + j = k + (j + 1) by omega]; exact hee⟩)
    refine ⟨e, by rw [show k + (r + 1) = k + 1 + r by omega]; exact he, ?_⟩
    unfold retryDo
    rw [he0]
    exact hres

theorem retryDo_succeeds {E A : Type} (f : Nat → Except E A) (a : A) :
    ∀ (m r k : Nat), m ≤ r → (∀ j, j < m → ∃ e, f (k + j) = Except.error e) →
    f (k + m) = Except.ok a → (retryDo f k r).1 = Except.ok a := by
  intro m
  induction m with
  | zero =>
    intro r k _ _ hok
    rw [Nat.add_zero] at hok
    unfold retryDo
    rw [hok]
  | succ m ih =>
    intro r k hmr hfail hok
    obtain ⟨r2, rfl⟩ : ∃ r2, r = r2 + 1 := ⟨r - 1, by omega⟩
    obtain ⟨e0, he0⟩ := hfail 0 (Nat.zero_le _ |>.trans_lt (Nat.succ_pos m))
    rw [Nat.add_zero] at he0
    unfold retryDo
    rw [he0]
    exact ih r2 (k + 1) (by omega)
      (fun j hj => by
        obtain ⟨e, hee⟩ := hfail (j + 1) (by omega)
        exact ⟨e, by rw [show k + 1 + j = k + (j + 1) by omega]; exact hee⟩)
      (by rw [show k + 1 + m = k + (m + 1) by omega]; exact hok)

/-! ## Claim theorems -/

/-- Claim C1: when a resolved projector invocation fails, the domain-entity
transaction rolls back atomically (the entity tables equal their
pre-invocation state, and the durable store is untouched), while a
`Failure(reason)` outcome is nevertheless committed to the Subscription
Ledger by a separate write applied to the pre-transaction ledger. -/
theorem projector_failure_atomic_rollback (st : PipelineState) (now : Nat)
    (env : Envelope) (proj : Projector) (reason : String)
    (hres : resolve st.registry env.eventType = some proj)
    (hfail : proj env.payload st.entities = Except.error reason) :
    (dispatchOne st now env).entities = st.entities
    ∧ (dispatchOne st now env).ledger
        = recordOutcome st.ledger env.source env.eventType now
            (Outcome.failure reason)
    ∧ lookupOutcome (dispatchOne st now env).ledger env.source env.eventType
        = some (Outcome.failure reason)
    ∧ (dispatchOne st now env).store = st.store := by
  have hd : dispatchOne st now env
      = { st with ledger := (recordOutcome st.ledger env.source env.eventType now (Outcome.failure reason)) } := by
    simp [dispatchOne, hres, hfail]
  rw [hd]
  exact ⟨rfl, rfl,
    lookupOutcome_recordOutcome env.source env.eventType now
      (Outcome.failure reason) st.ledger, rfl⟩

/-- Witness for the claim C1 theorem: a concrete failing projector leaves the
entities as they were and commits the failure outcome to the ledger. -/
theorem projector_failure_atomic_rollback_witness :
    (dispatchOne exState 5 exEnvelope).entities = [("hosts", "h1")]
    ∧ lookupOutcome (dispatchOne exState 5 exEnvelope).ledger
        "host-1" "host.discovered" = some (Outcome.failure "validation failed") := by
  have h := projector_failure_atomic_rollback exState 5 exEnvelope
    failingProjector "validation failed" (by rfl) (by rfl)
  exact ⟨h.1, h.2.2.1⟩

/-- Claim C2: dispatching an envelope whose event type has no registered
projector records `Failure("unknown event type")` in the ledger for that
(source, type), mutates no domain entity, leaves the envelope in the durable
store, consumes it from the queue without re-enqueueing (no automatic
retry), and the drain still dispatches every subsequent envelope. -/
theorem unknown_event_type_isolated (st : PipelineState) (now : Nat)
    (env : Envelope) (rest : List Envelope)
    (hq : st.queue = env :: rest)
    (hunk : resolve st.registry env.eventType = none) :
    (stepDispatch st now).entities = st.entities
    ∧ lookupOutcome (stepDispatch st now).ledger env.source env.eventType
        = some (Outcome.failure "unknown event type")
    ∧ (stepDispatch st now).store = st.store
    ∧ (stepDispatch st now).queue = rest
    ∧ (env ∉ rest → env ∉ (stepDispatch st now).queue)
    ∧ drainTrace st now = env :: rest := by
  have hstep : stepDispatch st now
      = dispatchOne { st with queue := rest } now env := by
    unfold stepDispatch
    rw [hq]
  have hd : dispatchOne { st with queue := rest } now env
      = { st with queue := rest, ledger := (recordOutcome st.ledger env.source env.eventType now (Outcome.failure "unknown event type")) } := by
    simp [dispatchOne, hunk]
  rw [hstep, hd]
  refine ⟨rfl, lookupOutcome_recordOutcome env.source env.eventType now
      (Outcome.failure "unknown event type") st.ledger, rfl, rfl,
    fun hnot => hnot, ?_⟩
  simp [drainTrace, hq, runListTrace_id]

/-- Witness for the claim C2 theorem: a concrete unknown-type envelope. -/
theorem unknown_event_type_isolated_witness :
    (stepDispatch exStateUnknown 5).entities = [("hosts", "h1")]
    ∧ lookupOutcome (stepDispatch exStateUnknown 5).ledger "host-1" "unknown.type"
        = some (Outcome.failure "unknown event type")
    ∧ (stepDispatch exStateUnknown 5).queue = [exEnvelope2] := by
  have h := unknown_event_type_isolated exStateUnknown 5 exUnknown [exEnvelope2]
    (by rfl) (by rfl)
  exact ⟨h.1, h.2.1, h.2.2.2.1⟩

/-- Claim C3: `Enqueue` always returns within the configured timeout; a
successful result means the item sits at the tail of the queue (never a
silent drop), and with the queue full the caller receives a backpressure
error, within the timeout, with the state unchanged. -/
theorem enqueue_bounded_backpressure (cap timeout : Nat) (st : PipelineState)
    (env : Envelope) :
    (enqueue cap timeout st env).2.2 ≤ timeout
    ∧ ((enqueue cap timeout st env).2.1 = Except.ok ()
        → (enqueue cap timeout st env).1.queue = st.queue ++ [env])
    ∧ (cap ≤ st.queue.length →
        (enqueue cap timeout st env).2.1
            = Except.error { message := "enqueue timed out: backpressure" }
        ∧ (enqueue cap timeout st env).2.2 ≤ timeout
        ∧ (enqueue cap timeout st env).1 = st) := by
  unfold enqueue
  by_cases hroom : st.queue.length < cap
  · rw [if_pos hroom]
    exact ⟨Nat.zero_le _, fun _ => rfl, fun hfull => absurd hroom (by omega)⟩
  · rw [if_neg hroom]
    exact ⟨Nat.le_refl _, fun hok => Except.noConfusion hok,
      fun _ => ⟨rfl, Nat.le_refl _, rfl⟩⟩

/-- Witness for the claim C3 theorem: enqueueing on a full queue of
capacity 1 yields a backpressure error and an unchanged state. -/
theorem enqueue_bounded_backpressure_witness :
    (enqueue 1 5 exStateUnknown exEnvelope).2.1
        = Except.error { message := "enqueue timed out: backpressure" }
    ∧ (enqueue 1 5 exStateUnknown exEnvelope).1 = exStateUnknown := by
  have h := (enqueue_bounded_backpressure 1 5 exStateUnknown exEnvelope).2.2
    (by decide)
  exact ⟨h.1, h.2.2⟩

/-- Claim C4: with the FIFO ingress queue, two envelopes of the same
(source, event type) pair enqueued as E1 before E2 are dispatched in that
order when the queue drains — E1 appears strictly before E2 in the dispatch
trace. -/
theorem same_pair_fifo_order (st : PipelineState) (now i j : Nat)
    (E1 E2 : Envelope) (hij : i < j)
    (h1 : st.queue[i]? = some E1) (h2 : st.queue[j]? = some E2)
    (hsrc : E1.source = E2.source) (htyp : E1.eventType = E2.eventType) :
    ∃ i2 j2 : Nat, i2 < j2
      ∧ (drainTrace st now)[i2]? = some E1
      ∧ (drainTrace st now)[j2]? = some E2 := by
  refine ⟨i, j, hij, ?_, ?_⟩ <;>
    simp only [drainTrace, runListTrace_id] <;> assumption

/-- Witness for the claim C4 theorem: two concrete same-pair envelopes keep
their order in the dispatch trace. -/
theorem same_pair_fifo_order_witness :
    ∃ i2 j2 : Nat, i2 < j2
      ∧ (drainTrace exState 0)[i2]? = some exEnvelope
      ∧ (drainTrace exState 0)[j2]? = some exEnvelope2 :=
  same_pair_fifo_order exState 0 0 1 exEnvelope exEnvelope2 (by decide)
    (by rfl) (by rfl) (by rfl) (by rfl)

/-- Claim C5: the envelope store is append-only — any lifetime of pipeline
operations only extends the store, every already-persisted envelope stays
unchanged at its position, `persist` is the only operation that writes the
store (no update or delete), and persisting identical content twice yields
two distinct envelopes. -/
theorem envelope_store_append_only (st : PipelineState) (ops : List PipelineOp)
    (env : Envelope) :
    (∃ tail, (applyOps st ops).store = st.store ++ tail)
    ∧ (∀ i : Nat, i < st.store.length
        → (applyOps st ops).store[i]? = st.store[i]?)
    ∧ (∀ (st2 : PipelineState) (op : PipelineOp),
        (applyOp st2 op).store = st2.store
        ∨ ∃ e, op = PipelineOp.persistOp e
            ∧ (applyOp st2 op).store = st2.store ++ [e])
    ∧ (persist (persist st env) env).store = st.store ++ [env, env] := by
  refine ⟨applyOps_store_extend ops st, ?_, ?_, ?_⟩
  · intro i hi
    obtain ⟨tail, htail⟩ := applyOps_store_extend ops st
    rw [htail]
    exact List.getElem?_append_left hi
  · intro st2 op
    cases op with
    | persistOp e => exact Or.inr ⟨e, rfl, rfl⟩
    | enqueueOp cap timeout e => exact Or.inl (enqueue_store cap timeout st2 e)
    | dispatchOp now => exact Or.inl (stepDispatch_store st2 now)
  · show (st.store ++ [env]) ++ [env] = st.store ++ [env, env]
    rw [List.append_assoc]
    rfl

/-- Witness for the claim C5 theorem: persisting keeps the existing envelope
at its position and duplicates append twice. -/
theorem envelope_store_append_only_witness :
    (applyOps exState [PipelineOp.persistOp exEnvelope2]).store[0]?
        = exState.store[0]?
    ∧ (persist (persist exState exEnvelope2) exEnvelope2).store
        = exState.store ++ [exEnvelope2, exEnvelope2] := by
  have h := envelope_store_append_only exState
    [PipelineOp.persistOp exEnvelope2] exEnvelope2
  exact ⟨h.2.1 0 (by decide), h.2.2.2⟩

/-- Claim C6: the projector registry built by `InitProjectorsRegistry` at
startup and handed to the worker pool is never changed by any later pipeline
operation, so `Resolve` answers identically throughout the process
lifetime. -/
theorem registry_fixed_after_startup (registrations : Registry)
    (ops : List PipelineOp) (t : EventType) :
    (NewProjectorsWorkerPool (InitProjectorsRegistry registrations)).registry
        = registrations
    ∧ (applyOps (NewProjectorsWorkerPool (InitProjectorsRegistry registrations))
        ops).registry = registrations
    ∧ resolve (applyOps
        (NewProjectorsWorkerPool (InitProjectorsRegistry registrations))
        ops).registry t
        = resolve (InitProjectorsRegistry registrations) t := by
  refine ⟨rfl, applyOps_registry ops _, ?_⟩
  rw [applyOps_registry]
  rfl

/-- Claim C7: `DefaultDependencies` connects to the database under a bounded
retry — at most 8 attempts, a positive backoff delay before every retry; if
all 8 attempts fail, process start is fatal with the last error, and if some
attempt before exhaustion succeeds, startup proceeds with the connected
handle. -/
theorem db_startup_bounded_retry {A : Type} (tryInit : Nat → Except String A) :
    (dbConnectRetry tryInit).2 ≤ 8
    ∧ (∀ (jitter : Nat → Nat) (n : Nat), 0 < retryDelayMs jitter n)
    ∧ ((∀ j, j < 8 → ∃ e, tryInit j = Except.error e) →
        ∃ e, tryInit 7 = Except.error e
          ∧ defaultDependenciesDB tryInit = Startup.fatal e)
    ∧ (∀ (m : Nat) (db : A), m < 8 →
        (∀ j, j < m → ∃ e, tryInit j = Except.error e) →
        tryInit m = Except.ok db →
        defaultDependenciesDB tryInit = Startup.started db) := by
  refine ⟨retryDo_attempts_le tryInit 7 0, ?_, ?_, ?_⟩
  · intro jitter n
    unfold retryDelayMs
    have h2 : 0 < 2 ^ n := Nat.pos_pow_of_pos n (by omega)
    omega
  · intro hall
    obtain ⟨e, he, hres⟩ := retryDo_all_fail tryInit 7 0 (fun j hj => by
      simpa using hall j (by omega))
    refine ⟨e, by simpa using he, ?_⟩
    unfold defaultDependenciesDB dbConnectRetry
    rw [hres]
  · intro m db hm hfail hok
    unfold defaultDependenciesDB dbConnectRetry
    rw [retryDo_succeeds tryInit db m 7 0 (by omega)
      (fun j hj => by simpa using hfail j hj)
      (by simpa using hok)]

/-- Witness for the claim C7 theorem: a connection that succeeds on the
third attempt lets startup proceed with the handle. -/
theorem db_startup_bounded_retry_witness :
    defaultDependenciesDB
        (fun j => if j = 2 then (Except.ok 0 : Except String Nat)
                  else Except.error "connection refused")
      = Startup.started 0 := by
  have h := db_startup_bounded_retry
    (fun j => if j = 2 then (Except.ok 0 : Except String Nat)
              else Except.error "connection refused")
  exact h.2.2.2 2 0 (by decide)
    (fun j hj => ⟨"connection refused", by interval_cases j <;> rfl⟩)
    (by rfl)

/-- Claim C8: every `Discover` built by `NewDiscover` answers the empty
string from `GetId`, whatever the client (and hostname). -/
theorem newDiscover_getId_empty (client : ConsulClient) (hostname : String) :
    (NewDiscover client hostname).GetId = "" :=
  rfl

/-- Claim C9: `Discover()` always returns nil, and because of the value
receiver the caller's value is observably unchanged — the body does assign
the hostname to its local copy, yet the caller's `GetId` and the key a
subsequent `storeDiscovery` would use are the same before and after the
call. -/
theorem discover_value_receiver_noop (d : Discover) (hostname : String)
    (kvHostsPath cStorePath : String) :
    (Discover.discoverBody d hostname).1.host = hostname
    ∧ (Discover.discoverCall d hostname).2 = none
    ∧ (Discover.discoverCall d hostname).1 = d
    ∧ (Discover.discoverCall d hostname).1.GetId = d.GetId
    ∧ Discover.storeDiscoveryKey kvHostsPath
        (Discover.discoverCall d hostname).1 cStorePath
        = Discover.storeDiscoveryKey kvHostsPath d cStorePath :=
  ⟨rfl, rfl, rfl, rfl, rfl⟩

/-- Claim C10: `ReadDoc` totally returns a string: a parse failure or an
execution failure falls back to the raw template text unchanged, a
successful execution returns the rendered output, and the info it renders
has the description's newlines escaped. -/
theorem readDoc_total_fallback {Tmpl : Type} (doc : String)
    (info : SwaggerInfo) (parse : String → Except String Tmpl)
    (exec : Tmpl → SwaggerInfo → Except String String) :
    ((∃ e, parse doc = Except.error e) → ReadDoc doc info parse exec = doc)
    ∧ (∀ t, parse doc = Except.ok t →
        (∃ e, exec t (escapeDescription info) = Except.error e) →
        ReadDoc doc info parse exec = doc)
    ∧ (∀ t s, parse doc = Except.ok t →
        exec t (escapeDescription info) = Except.ok s →
        ReadDoc doc info parse exec = s)
    ∧ (escapeDescription info).Description
        = info.Description.replace "\n" "\\n" := by
  refine ⟨?_, ?_, ?_, rfl⟩
  · rintro ⟨e, he⟩
    simp only [ReadDoc, he]
  · rintro t hp ⟨e, he⟩
    simp only [ReadDoc, hp, he]
  · intro t s hp he
    simp only [ReadDoc, hp, he]

/-- Witness for the claim C10 theorem: a template engine that renders
successfully makes `ReadDoc` return the rendered text. -/
theorem readDoc_total_fallback_witness :
    ReadDoc "template" exSwaggerInfo (fun _ => Except.ok ())
        (fun _ _ => Except.ok "rendered") = "rendered" := by
  have h := readDoc_total_fallback "template" exSwaggerInfo
    (fun _ => Except.ok ()) (fun _ _ => Except.ok "rendered")
  exact h.2.2.1 () "rendered" rfl rfl

end Trento
